import Mathlib

/-!
Shallow embedding of the RSW-Invoice-System backend
(`src/backend/utils.py`, `src/backend/database_file.py`,
`src/backend/database_netlify.py`, `src/backend/auth_file.py`,
`src/backend/main.py`).

Modelling conventions:
* Python `float` money values are modelled as exact rationals (`ℚ`);
  a Python float that can also be `inf`/`nan` is modelled by `PyFloat`.
* Python dicts for the stored records are modelled by structures whose
  fields are `Option`-valued: `none` models an absent key, so that
  `d.get(k)` is the field itself and `k not in d` is `field = none`.
* `datetime.utcnow().isoformat()` is passed in as an explicit `now : String`.
* Stateful methods of `FileDatabase` become pure functions from the decoded
  collection (a `List` of records) to the rewritten collection.
-/

set_option autoImplicit false

/-! ## Invoice engine: `calculate_invoice_totals` (src/backend/utils.py lines 9-20) -/

/-- The `InvoiceItemCreate` pydantic schema (src/backend/schemas.py): one
invoice line item as supplied by the client. -/
structure InvoiceItemCreate where
  description : String
  quantity : ℚ
  unit : String
  unit_price : ℚ
  tax_rate : ℚ
  deriving Repr, DecidableEq

/-- One item's line total, `item.quantity * item.unit_price` in the loop body
of `calculate_invoice_totals`. -/
def lineTotal (item : InvoiceItemCreate) : ℚ :=
  item.quantity * item.unit_price

/-- One item's line tax, `item_total * (item.tax_rate / 100)` in the loop body
of `calculate_invoice_totals`. -/
def lineTax (item : InvoiceItemCreate) : ℚ :=
  lineTotal item * (item.tax_rate / 100)

/-- `calculate_invoice_totals` (src/backend/utils.py): accumulates
`subtotal` and `total_tax` over the items in order and returns
`(subtotal, total_tax, subtotal + total_tax)`. -/
def calculate_invoice_totals (items : List InvoiceItemCreate) : ℚ × ℚ × ℚ :=
  let acc := items.foldl
    (fun (acc : ℚ × ℚ) item =>
      let item_total := item.quantity * item.unit_price
      let item_tax := item_total * (item.tax_rate / 100)
      (acc.1 + item_total, acc.2 + item_tax))
    (0, 0)
  (acc.1, acc.2, acc.1 + acc.2)

/-! ## Stored records (the JSON dicts held in `users.json`, `clients.json`,
`invoices.json` of `FileDatabase`) -/

/-- A record of the `users` collection.  Fields are `Option`-valued because
the Python code stores plain dicts and reads keys with `.get`. -/
structure UserRec where
  id : Option Int
  email : Option String
  name : Option String
  hashed_password : Option String
  is_admin : Option Bool
  is_active : Option Bool
  created_at : Option String
  updated_at : Option String
  deriving Repr, DecidableEq

/-- A record of the `clients` collection. -/
structure ClientRec where
  id : Option Int
  name : Option String
  email : Option String
  phone : Option String
  address : Option String
  ntn : Option String
  gst : Option String
  vendor_code : Option String
  created_at : Option String
  updated_at : Option String
  deriving Repr, DecidableEq

/-- A record of the `invoices` collection, as produced by
`invoice.dict()` in `src/backend/main.py` plus the keys `FileDatabase`
adds.  `subtotal`, `tax_amount` and `total_amount` are `Option`-valued:
`none` models the key being absent from the stored dict. -/
structure InvoiceRec where
  id : Option Int
  invoice_number : Option String
  po_number : Option String
  invoice_date : Option String
  due_date : Option String
  status : Option String
  notes : Option String
  client_id : Option Int
  created_by : Option Int
  items : Option (List InvoiceItemCreate)
  subtotal : Option ℚ
  tax_amount : Option ℚ
  total_amount : Option ℚ
  amount_in_words : Option String
  created_at : Option String
  updated_at : Option String
  deriving Repr, DecidableEq

/-! ## `FileDatabase` save operations (src/backend/database_file.py)

Each `save_*` scans the decoded collection for the first record whose key
(`email` for users, `id` for clients and invoices, both read with `.get`,
so two absent keys compare equal) matches the incoming record; if found it
replaces that record in place with the incoming dict (stamping only
`updated_at`); otherwise it stamps `created_at`/`updated_at`, assigns
`id = len(collection) + 1` when the incoming dict has no `"id"` key, and
appends.  The whole collection is then rewritten; we return the rewritten
collection together with the returned record. -/

/-- The `for i, user in enumerate(users)` scan of `save_user`: replace the
first record whose `email` equals `target` by `u` (in place), or report
`none` when no record matches (the loop's `else` branch runs). -/
def save_user_scan (u : UserRec) (target : Option String) :
    List UserRec → Option (List UserRec)
  | [] => none
  | x :: xs =>
    if x.email = target then some (u :: xs)
    else (save_user_scan u target xs).map (x :: ·)

/-- `FileDatabase.save_user` (src/backend/database_file.py lines 45-65). -/
def save_user (users : List UserRec) (user_data : UserRec) (now : String) :
    List UserRec × UserRec :=
  let updated := { user_data with updated_at := some now }
  match save_user_scan updated user_data.email users with
  | some users' => (users', updated)
  | none =>
    let stamped := { user_data with created_at := some now, updated_at := some now }
    let fresh :=
      if stamped.id = none then
        { stamped with id := some ((users.length : Int) + 1) }
      else stamped
    (users ++ [fresh], fresh)

/-- The scan of `save_client`, keyed on `client.get("id")`. -/
def save_client_scan (c : ClientRec) (target : Option Int) :
    List ClientRec → Option (List ClientRec)
  | [] => none
  | x :: xs =>
    if x.id = target then some (c :: xs)
    else (save_client_scan c target xs).map (x :: ·)

/-- `FileDatabase.save_client` (src/backend/database_file.py lines 98-118). -/
def save_client (clients : List ClientRec) (client_data : ClientRec) (now : String) :
    List ClientRec × ClientRec :=
  let updated := { client_data with updated_at := some now }
  match save_client_scan updated client_data.id clients with
  | some clients' => (clients', updated)
  | none =>
    let stamped := { client_data with created_at := some now, updated_at := some now }
    let fresh :=
      if stamped.id = none then
        { stamped with id := some ((clients.length : Int) + 1) }
      else stamped
    (clients ++ [fresh], fresh)

/-- The scan of `save_invoice`, keyed on `invoice.get("id")`. -/
def save_invoice_scan (v : InvoiceRec) (target : Option Int) :
    List InvoiceRec → Option (List InvoiceRec)
  | [] => none
  | x :: xs =>
    if x.id = target then some (v :: xs)
    else (save_invoice_scan v target xs).map (x :: ·)

/-- `FileDatabase.save_invoice` (src/backend/database_file.py lines 143-163). -/
def save_invoice (invoices : List InvoiceRec) (invoice_data : InvoiceRec) (now : String) :
    List InvoiceRec × InvoiceRec :=
  let updated := { invoice_data with updated_at := some now }
  match save_invoice_scan updated invoice_data.id invoices with
  | some invoices' => (invoices', updated)
  | none =>
    let stamped := { invoice_data with created_at := some now, updated_at := some now }
    let fresh :=
      if stamped.id = none then
        { stamped with id := some ((invoices.length : Int) + 1) }
      else stamped
    (invoices ++ [fresh], fresh)

/-! ## `FileDatabase` delete operations (src/backend/database_file.py)

Each `delete_*` filters out all matching records and writes the file back
only when the filtered list is shorter, returning `True`; otherwise it
returns `False` without writing.  The second component is `some l` when
the file is rewritten with `l`, and `none` when no write happens. -/

/-- `FileDatabase.delete_user` (lines 83-92): drops every record with
`user.get("email") == email` (an absent email never equals a string). -/
def delete_user (users : List UserRec) (email : String) :
    Bool × Option (List UserRec) :=
  let remaining := users.filter (fun u => !(u.email == some email))
  if remaining.length < users.length then (true, some remaining) else (false, none)

/-- `FileDatabase.delete_client` (lines 128-137). -/
def delete_client (clients : List ClientRec) (client_id : Int) :
    Bool × Option (List ClientRec) :=
  let remaining := clients.filter (fun c => !(c.id == some client_id))
  if remaining.length < clients.length then (true, some remaining) else (false, none)

/-- `FileDatabase.delete_invoice` (lines 181-190). -/
def delete_invoice (invoices : List InvoiceRec) (invoice_id : Int) :
    Bool × Option (List InvoiceRec) :=
  let remaining := invoices.filter (fun v => !(v.id == some invoice_id))
  if remaining.length < invoices.length then (true, some remaining) else (false, none)

/-- `FileDatabase.get_user_by_email` (lines 67-73): first record whose
`email` key equals the given string. -/
def get_user_by_email (users : List UserRec) (email : String) : Option UserRec :=
  users.find? (fun u => u.email == some email)

/-- `FileDatabase.get_invoice_by_id` (lines 165-171). -/
def get_invoice_by_id (invoices : List InvoiceRec) (invoice_id : Int) : Option InvoiceRec :=
  invoices.find? (fun v => v.id == some invoice_id)

/-! ## Reading the backing files (C6)

A backing file is either missing, present but not valid JSON, or decodes
to a list of records. -/

/-- State of one backing JSON file: absent, undecodable, or decoding to a
list of records. -/
inductive StoredFile (α : Type) where
  | missing
  | malformed
  | wellFormed (records : List α)
  deriving Repr, DecidableEq

/-- `FileDatabase._read_json` (src/backend/database_file.py lines 28-34):
`open` on a missing file raises `FileNotFoundError` and `json.load` on
malformed content raises `JSONDecodeError`; both are caught and `[]` is
returned. -/
def FileDatabase_read_json {α : Type} : StoredFile α → List α
  | .missing => []
  | .malformed => []
  | .wellFormed l => l

/-- `NetlifyDatabase._read_json` (src/backend/database_netlify.py lines
29-37): when the file exists the body returns the decoded value, and any
exception while reading it is caught and `[]` returned; but when
`file_path.exists()` is false no branch returns, so the function falls
off its end and yields Python's `None`, modelled as `none`. -/
def NetlifyDatabase_read_json {α : Type} : StoredFile α → Option (List α)
  | .missing => none
  | .malformed => some []
  | .wellFormed l => some l

/-- `FileDatabase.get_users` (lines 41-43). -/
def FileDatabase_get_users (users_file : StoredFile UserRec) : List UserRec :=
  FileDatabase_read_json users_file

/-- `FileDatabase.get_clients` (lines 94-96). -/
def FileDatabase_get_clients (clients_file : StoredFile ClientRec) : List ClientRec :=
  FileDatabase_read_json clients_file

/-- `FileDatabase.get_invoices` (lines 139-141). -/
def FileDatabase_get_invoices (invoices_file : StoredFile InvoiceRec) : List InvoiceRec :=
  FileDatabase_read_json invoices_file

/-- `NetlifyDatabase.get_users` (src/backend/database_netlify.py lines
47-48): whatever `_read_json` produced, including the fall-through `None`. -/
def NetlifyDatabase_get_users (users_file : StoredFile UserRec) : Option (List UserRec) :=
  NetlifyDatabase_read_json users_file

/-! ## `create_user` (src/backend/auth_file.py lines 88-107, C5) -/

/-- The error raised by `create_user` on a duplicate email
(`HTTPException(400, "Email already registered")`). -/
inductive AuthError where
  | duplicateEmail
  deriving Repr, DecidableEq

/-- Stand-in for `get_password_hash` (src/backend/auth_file.py lines
19-21), which calls the external passlib bcrypt context.  The claims do
not depend on hash values, only that some string is stored; we model the
hash as an injective tagging of the password. -/
def get_password_hash (password : String) : String :=
  "$2b$12$" ++ password

/-- `create_user` (src/backend/auth_file.py lines 88-107): raises on a
duplicate email before any write, otherwise builds the new user dict
(note: no `"id"` key) and delegates to `save_user`.  The second component
is the users collection after the call; on the error path nothing was
written, so it is the input collection. -/
def create_user (users : List UserRec) (email name password : String)
    (is_admin : Bool) (now : String) :
    Except AuthError UserRec × List UserRec :=
  match get_user_by_email users email with
  | some _ => (.error .duplicateEmail, users)
  | none =>
    let user_data : UserRec :=
      { id := none
        email := some email
        name := some name
        hashed_password := some (get_password_hash password)
        is_admin := some is_admin
        is_active := some true
        created_at := none
        updated_at := none }
    let result := save_user users user_data now
    (.ok result.2, result.1)

/-! ## `generate_invoice_number` (src/backend/utils.py lines 39-53, C2)

The function runs against the SQLAlchemy `Invoice` table
(src/backend/models.py), whose rows always carry an integer primary-key
`id` and a non-null `invoice_number` string. -/

/-- A row of the SQLAlchemy `Invoice` table as far as
`generate_invoice_number` reads it. -/
structure InvoiceRow where
  id : Int
  invoice_number : String
  deriving Repr, DecidableEq

/-- `db.query(Invoice).order_by(Invoice.id.desc()).first()`: the row with
the maximum `id` (primary-key ids are unique, so keeping the first of
equal ids is immaterial), or `none` for an empty table. -/
def last_invoice (rows : List InvoiceRow) : Option InvoiceRow :=
  rows.foldl
    (fun acc r =>
      match acc with
      | none => some r
      | some a => if r.id > a.id then some r else some a)
    none

/-- Python's `str.split('-')` on a list of characters: splits at every
`'-'`, keeping empty parts (`"".split('-') == [""]`). -/
def splitCharList (c : Char) : List Char → List (List Char)
  | [] => [[]]
  | x :: xs =>
    let r := splitCharList c xs
    if x = c then [] :: r
    else
      match r with
      | h :: t => (x :: h) :: t
      | [] => [[x]]

/-- Whitespace accepted (and stripped) by Python's `int(str)`. -/
def isPySpace (c : Char) : Bool :=
  c == ' ' || c == '\t' || c == '\n' || c == '\r' || c == '\x0b' || c == '\x0c'

/-- Numeric value of an ASCII digit. -/
def digitVal (c : Char) : Nat := c.toNat - 48

/-- Digits of a Python integer literal after the first one: single
underscores are allowed between digits only. -/
def pyDigitsAux : List Char → Nat → Option Nat
  | [], acc => some acc
  | '_' :: c :: cs, acc =>
    if c.isDigit then pyDigitsAux cs (acc * 10 + digitVal c) else none
  | ['_'], _ => none
  | c :: cs, acc =>
    if c.isDigit then pyDigitsAux cs (acc * 10 + digitVal c) else none

/-- Unsigned decimal digit run of Python's `int(str)` (nonempty). -/
def pyDigits : List Char → Option Nat
  | [] => none
  | c :: cs => if c.isDigit then pyDigitsAux cs (digitVal c) else none

/-- Python's `int(str)` on a list of characters: strip surrounding
whitespace, optional sign, then a nonempty digit run; `none` models the
`ValueError` the bare `except` of `generate_invoice_number` catches. -/
def pySignedDigits : List Char → Option Int
  | [] => none
  | c :: rest =>
    if c = '+' then (pyDigits rest).map (fun n => (n : Int))
    else if c = '-' then (pyDigits rest).map (fun n => -(n : Int))
    else (pyDigits (c :: rest)).map (fun n => (n : Int))

/-- Python's `int(str)` on a list of characters: strip surrounding
whitespace, then the optional sign and digit run. -/
def pyIntList (l : List Char) : Option Int :=
  pySignedDigits (((l.dropWhile isPySpace).reverse.dropWhile isPySpace).reverse)

/-- Python's `int(str)`. -/
def pyInt (s : String) : Option Int := pyIntList s.toList

/-- Python's format spec `f"{n:04d}"`: decimal rendering left-padded with
zeros to overall width 4 (sign included in the width), wider numbers kept
whole. -/
def pad04 (n : Int) : String :=
  if n < 0 then
    "-" ++ String.mk (List.replicate (3 - (toString (-n)).length) '0') ++ toString (-n)
  else
    String.mk (List.replicate (4 - (toString n).length) '0') ++ toString n

/-- `generate_invoice_number` (src/backend/utils.py lines 39-53): take the
row with the maximum `id`, parse `invoice_number.split('-')[-1]` as an
integer, add one; on an empty table or a parse failure restart at 1;
format as `INV-` plus the 4-zero-padded number. -/
def generate_invoice_number (rows : List InvoiceRow) : String :=
  match last_invoice rows with
  | some last =>
    match pyIntList ((splitCharList '-' last.invoice_number.toList).getLastD []) with
    | some last_num => "INV-" ++ pad04 (last_num + 1)
    | none => "INV-" ++ pad04 1
  | none => "INV-" ++ pad04 1

/-- Written from the claim's words: the characters of the integer suffix
after the last `-` of the string (the whole string when it has no `-`). -/
def suffixAfterLastDash (c : Char) : List Char → List Char
  | [] => []
  | x :: xs =>
    if x = c then suffixAfterLastDash c xs
    else if c ∈ xs then suffixAfterLastDash c xs
    else x :: xs

/-- Written from the claim's words: zero-pad a number to 4 digits, numbers
of 4 or more digits widen rather than truncate. -/
def zeroPadWiden (n : Int) : String :=
  if (toString n).length < 4 then
    String.mk (List.replicate (4 - (toString n).length) '0') ++ toString n
  else toString n

/-! ## `number_to_words` (src/backend/utils.py lines 22-37, C7/C8) -/

/-- A Python float: an exact finite rational or one of the non-finite
values. -/
inductive PyFloat where
  | fin (q : ℚ)
  | inf
  | ninf
  | nan
  deriving Repr, DecidableEq

/-- Python's `int(float)` on a finite value: truncation toward zero. -/
def pyTrunc (q : ℚ) : ℤ :=
  if 0 ≤ q then ⌊q⌋ else ⌈q⌉

/-- Python 3's built-in `round` on a finite value: round half to even. -/
def pyRound (q : ℚ) : ℤ :=
  let f := ⌊q⌋
  let r := q - (f : ℚ)
  if r < 1 / 2 then f
  else if 1 / 2 < r then f + 1
  else if f % 2 = 0 then f else f + 1

/-- Python's `str.capitalize`: first character upper-cased, all following
characters lower-cased. -/
def pyCapitalize (s : String) : String :=
  match s.toList with
  | [] => ""
  | c :: cs => String.mk (c.toUpper :: cs.map Char.toLower)

/-- English words for one digit 1-9 (used in the model of the external
`inflect` library). -/
def onesWord (n : Nat) : String :=
  match n with
  | 1 => "one" | 2 => "two" | 3 => "three" | 4 => "four" | 5 => "five"
  | 6 => "six" | 7 => "seven" | 8 => "eight" | 9 => "nine" | _ => ""

/-- English words for 10-19. -/
def teensWord (n : Nat) : String :=
  match n with
  | 10 => "ten" | 11 => "eleven" | 12 => "twelve" | 13 => "thirteen"
  | 14 => "fourteen" | 15 => "fifteen" | 16 => "sixteen" | 17 => "seventeen"
  | 18 => "eighteen" | 19 => "nineteen" | _ => ""

/-- English words for the tens 20, 30, ..., 90. -/
def tensWord (n : Nat) : String :=
  match n with
  | 2 => "twenty" | 3 => "thirty" | 4 => "forty" | 5 => "fifty"
  | 6 => "sixty" | 7 => "seventy" | 8 => "eighty" | 9 => "ninety" | _ => ""

/-- English words for 1-99. -/
def twoDigitWords (n : Nat) : String :=
  if n < 10 then onesWord n
  else if n < 20 then teensWord n
  else if n % 10 = 0 then tensWord (n / 10)
  else tensWord (n / 10) ++ "-" ++ onesWord (n % 10)

/-- English words for a base-1000 group 1-999 (with `andword=""`, inflect
joins the hundreds and the rest with a single space). -/
def threeDigitWords (n : Nat) : String :=
  let h := n / 100
  let r := n % 100
  if h = 0 then twoDigitWords r
  else if r = 0 then onesWord h ++ " hundred"
  else onesWord h ++ " hundred " ++ twoDigitWords r

/-- Scale names for the base-1000 groups the model supports. -/
def scaleNames : List String :=
  ["", " thousand", " million", " billion", " trillion", " quadrillion",
   " quintillion", " sextillion", " septillion", " octillion", " nonillion",
   " decillion"]

/-- Base-1000 digits, least significant group first, with explicit fuel
(structural recursion; the fuel `n + 1` always suffices since the value
shrinks by a factor of 1000 each step). -/
def thousandsGroupsAux : Nat → Nat → List Nat
  | 0, _ => []
  | fuel + 1, n => if n = 0 then [] else (n % 1000) :: thousandsGroupsAux fuel (n / 1000)

/-- Base-1000 digits of a natural number, least significant group first. -/
def thousandsGroups (n : Nat) : List Nat :=
  thousandsGroupsAux (n + 1) n

/-- Model of the external `inflect` library's `number_to_words` on a
natural number with `andword=""`: nonzero base-1000 groups rendered most
significant first, each with its scale name, joined by `", "`; values past
the supported scale list fail (`none`), modelling a rendering failure
that the caller's bare `except` would catch. -/
def inflectWordsNat (n : Nat) : Option String :=
  if n = 0 then some "zero"
  else
    let gs := thousandsGroups n
    if gs.length ≤ scaleNames.length then
      let parts := gs.enum.filterMap
        (fun gi =>
          if gi.2 = 0 then none
          else some (threeDigitWords gi.2 ++ scaleNames.getD gi.1 ""))
      some (String.intercalate ", " parts.reverse)
    else none

/-- Model of `inflect`'s `number_to_words` on an integer: a negative value
is the words of its absolute value prefixed with `"minus "`. -/
def inflectWords (n : ℤ) : Option String :=
  if n < 0 then (inflectWordsNat (-n).toNat).map (fun s => "minus " ++ s)
  else inflectWordsNat n.toNat

/-- Left-pad the decimal rendering of `n` with zeros to `k` characters. -/
def natPadLeft (k : Nat) (n : Nat) : String :=
  let s := toString n
  String.mk (List.replicate (k - s.length) '0') ++ s

/-- Model of Python's `str` on a finite float whose shortest repr is plain
decimal: sign, integer part, `"."`, and the fractional digits (a single
`"0"` for an integral value, as in `str(2.0) == "2.0"`).  Scientific
notation for very large or small magnitudes is not modelled; theorems use
this rendering only where the plain form applies or where the exact text
is immaterial. -/
def ratDecimalDigits (a : ℚ) : String :=
  if a - (((⌊a⌋).toNat : ℚ)) = 0 then toString (⌊a⌋).toNat ++ ".0"
  else
    match ((List.range 30).map (· + 1)).find?
        (fun k => ((a - (((⌊a⌋).toNat : ℚ))) * (10 : ℚ) ^ k).den == 1) with
    | some k =>
      toString (⌊a⌋).toNat ++ "." ++
        natPadLeft k (((a - (((⌊a⌋).toNat : ℚ))) * (10 : ℚ) ^ k).num).toNat
    | none =>
      toString (⌊a⌋).toNat ++ "." ++ toString (a - (((⌊a⌋).toNat : ℚ))).num ++ "/" ++
        toString (a - (((⌊a⌋).toNat : ℚ))).den

/-- Model of Python's `str` on a finite float: the optional minus sign
followed by the decimal digits of the absolute value. -/
def ratDecimalStr (q : ℚ) : String :=
  (if q < 0 then "-" else "") ++ ratDecimalDigits |q|

/-- Python's `str` on a float. -/
def pyStr : PyFloat → String
  | .fin q => ratDecimalStr q
  | .inf => "inf"
  | .ninf => "-inf"
  | .nan => "nan"

/-- The string-assembly of `number_to_words`'s `try` block, after
`integer_part` and `decimal_part` have been computed: render the integer
part (capitalized), append `" and <cents words>/100"` when the cents are
positive, and append `" Only"`.  A word-rendering failure anywhere makes
the whole body fail. -/
def wordsResult (integer_part decimal_part : ℤ) : Option String := do
  let w ← inflectWords integer_part
  let words := pyCapitalize w
  let words ←
    if decimal_part > 0 then do
      let dw ← inflectWords decimal_part
      pure (words ++ " and " ++ dw ++ "/100")
    else pure words
  pure (words ++ " Only")

/-- The body of `number_to_words`'s `try` block on a finite value:
`integer_part = int(number)` (truncation), `decimal_part =
round((number - integer_part) * 100)`, then the word assembly. -/
def number_to_words_core (q : ℚ) : Option String :=
  wordsResult (pyTrunc q) (pyRound ((q - (pyTrunc q : ℚ)) * 100))

/-- `number_to_words` (src/backend/utils.py lines 22-37): the `try` body
on a finite value, falling back to `str(number)` when it fails; on a
non-finite value `int(number)` raises (`OverflowError`/`ValueError`), so
the bare `except` returns `str(number)` directly. -/
def number_to_words (x : PyFloat) : String :=
  match x with
  | .fin q => (number_to_words_core q).getD (pyStr x)
  | _ => pyStr x

/-- Written from the claim's words: split the amount into integer part and
cents `round((amount - floor(amount)) * 100)`, render the integer part as
words (capitalized), append `"and <cents>/100"` only if the cents are
positive, and suffix `"Only"`. -/
def amountToWordsClaim (q : ℚ) : Option String :=
  wordsResult ⌊q⌋ (pyRound ((q - (⌊q⌋ : ℚ)) * 100))

/-- Inputs on which `number_to_words`'s word rendering fails: the
non-finite floats (where `int(number)` raises) and the finite values whose
`try` body fails. -/
def isFailureInput : PyFloat → Bool
  | .fin q => (number_to_words_core q).isNone
  | _ => true

/-! ## The invoice endpoints of `src/backend/main.py` (C3) -/

/-- The `InvoiceCreate` pydantic schema (src/backend/schemas.py lines
81-91).  Note: it has no `subtotal`, `tax_amount` or `total_amount`
field, so `invoice.dict()` carries no such keys. -/
structure InvoiceCreate where
  invoice_number : String
  po_number : Option String
  invoice_date : String
  due_date : Option String
  status : String
  notes : Option String
  client_id : Int
  items : List InvoiceItemCreate
  deriving Repr, DecidableEq

/-- The `InvoiceUpdate` pydantic schema (src/backend/schemas.py lines
93-100): every field optional; `none` models a field absent from
`invoice.dict(exclude_unset=True)` (explicitly setting a field to JSON
`null` is not modelled).  It has no totals fields either. -/
structure InvoiceUpdate where
  po_number : Option String
  invoice_date : Option String
  due_date : Option String
  status : Option String
  notes : Option String
  client_id : Option Int
  items : Option (List InvoiceItemCreate)
  deriving Repr, DecidableEq

/-- `invoice.dict()` for an `InvoiceCreate` plus the
`invoice_data["created_by"] = current_user["id"]` line of
`create_invoice`: the dict sent to `save_invoice`.  No totals keys are
ever set. -/
def invoiceCreateDict (inv : InvoiceCreate) (uid : Int) : InvoiceRec :=
  { id := none
    invoice_number := some inv.invoice_number
    po_number := inv.po_number
    invoice_date := some inv.invoice_date
    due_date := inv.due_date
    status := some inv.status
    notes := inv.notes
    client_id := some inv.client_id
    created_by := some uid
    items := some inv.items
    subtotal := none
    tax_amount := none
    total_amount := none
    amount_in_words := none
    created_at := none
    updated_at := none }

/-- `create_invoice` (src/backend/main.py lines 170-182): builds the dict
and hands it to `file_db.save_invoice`.  When `invoice_number` is falsy
(empty) the code calls `generate_invoice_number()` without the `db`
argument its definition requires, raising `TypeError`; that path is
modelled as `none`. -/
def main_create_invoice (invoices : List InvoiceRec) (inv : InvoiceCreate)
    (uid : Int) (now : String) : Option (List InvoiceRec × InvoiceRec) :=
  if inv.invoice_number = "" then none
  else some (save_invoice invoices (invoiceCreateDict inv uid) now)

/-- `invoice_data.update(update_data)` of `update_invoice`: overwrite
exactly the keys present in `invoice.dict(exclude_unset=True)`. -/
def applyInvoiceUpdate (d : InvoiceRec) (u : InvoiceUpdate) : InvoiceRec :=
  { d with
    po_number := match u.po_number with | some v => some v | none => d.po_number
    invoice_date := match u.invoice_date with | some v => some v | none => d.invoice_date
    due_date := match u.due_date with | some v => some v | none => d.due_date
    status := match u.status with | some v => some v | none => d.status
    notes := match u.notes with | some v => some v | none => d.notes
    client_id := match u.client_id with | some v => some v | none => d.client_id
    items := match u.items with | some v => some v | none => d.items }

/-- `update_invoice` (src/backend/main.py lines 197-214): 404 (`none`)
when the id is unknown; otherwise copy the stored dict, merge the update's
set fields into it, and hand it to `file_db.save_invoice`.  The totals
keys are never touched. -/
def main_update_invoice (invoices : List InvoiceRec) (invoice_id : Int)
    (upd : InvoiceUpdate) (now : String) : Option (List InvoiceRec × InvoiceRec) :=
  match get_invoice_by_id invoices invoice_id with
  | none => none
  | some existing => some (save_invoice invoices (applyInvoiceUpdate existing upd) now)

/-! ## Concrete fixtures used by the counterexamples and witnesses -/

/-- A user dict carrying only an email, as Python's
`{"email": e}`. -/
def userNoId (e : String) : UserRec :=
  { id := none, email := some e, name := none, hashed_password := none
    is_admin := none, is_active := none, created_at := none, updated_at := none }

/-- A user dict carrying an email and an id. -/
def userWithId (e : String) (i : Int) : UserRec :=
  { userNoId e with id := some i }

/-- A client dict with no id. -/
def clientNoId (n : String) : ClientRec :=
  { id := none, name := some n, email := none, phone := none, address := none
    ntn := none, gst := none, vendor_code := none, created_at := none, updated_at := none }

/-- An invoice dict with no id. -/
def invoiceNoId (num : String) : InvoiceRec :=
  { id := none, invoice_number := some num, po_number := none, invoice_date := none
    due_date := none, status := none, notes := none, client_id := none
    created_by := none, items := none, subtotal := none, tax_amount := none
    total_amount := none, amount_in_words := none, created_at := none, updated_at := none }

/-- The original line item of the stored fixture invoice. -/
def itemOld : InvoiceItemCreate :=
  { description := "excavation", quantity := 10, unit := "hr", unit_price := 10, tax_rate := 0 }

/-- The replacement line item sent by the update. -/
def itemNew : InvoiceItemCreate :=
  { description := "survey", quantity := 1, unit := "job", unit_price := 5, tax_rate := 0 }

/-- A stored invoice whose totals were computed for `itemOld`. -/
def storedInvoice : InvoiceRec :=
  { id := some 1, invoice_number := some "INV-0001", po_number := none
    invoice_date := some "2024-01-01T00:00:00", due_date := none
    status := some "draft", notes := none, client_id := some 1, created_by := some 1
    items := some [itemOld], subtotal := some 100, tax_amount := some 0
    total_amount := some 100, amount_in_words := some "One hundred Only"
    created_at := some "t0", updated_at := some "t0" }

/-- An update that replaces only the items. -/
def itemsOnlyUpdate : InvoiceUpdate :=
  { po_number := none, invoice_date := none, due_date := none, status := none
    notes := none, client_id := none, items := some [itemNew] }

/-- A create request carrying one item. -/
def createReq : InvoiceCreate :=
  { invoice_number := "INV-0002", po_number := none
    invoice_date := "2024-02-01T00:00:00", due_date := none, status := "draft"
    notes := none, client_id := 1, items := [itemNew] }

/-! ## Helper lemmas -/

/-- The fold of `calculate_invoice_totals` from any starting accumulator
adds the sums of the per-item line totals and line taxes. -/
theorem calc_totals_foldl (l : List InvoiceItemCreate) :
    ∀ a b : ℚ,
      l.foldl
        (fun (acc : ℚ × ℚ) item =>
          let item_total := item.quantity * item.unit_price
          let item_tax := item_total * (item.tax_rate / 100)
          (acc.1 + item_total, acc.2 + item_tax)) (a, b)
      = (a + (l.map lineTotal).sum, b + (l.map lineTax).sum) := by
  induction l with
  | nil => intro a b; simp
  | cons x xs ih =>
    intro a b
    simp only [List.foldl_cons, List.map_cons, List.sum_cons, ih]
    exact Prod.ext (by ring_nf; rw [lineTotal]; ring) (by ring_nf; rw [lineTax, lineTotal]; ring)

/-! ## Claim theorems -/

/-- Claim C4 (confirmed): `calculate_invoice_totals` returns
`(subtotal, taxAmount, total)` where each item's line total is
`quantity * unit_price`, each item's line tax is that line total times
`tax_rate / 100`, the subtotal and tax amount are the sums of these, and
`total = subtotal + taxAmount`. -/
theorem calculate_invoice_totals_spec (items : List InvoiceItemCreate) :
    calculate_invoice_totals items =
      ((items.map lineTotal).sum, (items.map lineTax).sum,
       (items.map lineTotal).sum + (items.map lineTax).sum) := by
  unfold calculate_invoice_totals
  rw [calc_totals_foldl items 0 0]
  simp

/-- Claim C9 (confirmed): `calculate_invoice_totals` is order-independent
and incremental: the totals of `[a, b]` equal those of `[b, a]`, and equal
the totals of `[a]` plus the contribution (line total, line tax, and their
sum) of `b`. -/
theorem calculate_invoice_totals_comm_incremental (a b : InvoiceItemCreate) :
    calculate_invoice_totals [a, b] = calculate_invoice_totals [b, a] ∧
    (calculate_invoice_totals [a, b]).1 = (calculate_invoice_totals [a]).1 + lineTotal b ∧
    (calculate_invoice_totals [a, b]).2.1 = (calculate_invoice_totals [a]).2.1 + lineTax b ∧
    (calculate_invoice_totals [a, b]).2.2
      = (calculate_invoice_totals [a]).2.2 + (lineTotal b + lineTax b) := by
  refine ⟨?_, ?_, ?_, ?_⟩ <;>
    (simp [calculate_invoice_totals, lineTotal, lineTax, Prod.ext_iff];
     try ring_nf;
     try exact ⟨trivial, trivial, trivial⟩)

/-- When no record's email matches the target, the `save_user` scan falls
through to the loop's `else` branch. -/
theorem save_user_scan_none (u : UserRec) (t : Option String) :
    ∀ l : List UserRec, (∀ x ∈ l, x.email ≠ t) → save_user_scan u t l = none := by
  intro l h
  induction l with
  | nil => rfl
  | cons x xs ih =>
    simp only [save_user_scan]
    rw [if_neg (h x (List.mem_cons_self x xs)),
      ih (fun y hy => h y (List.mem_cons_of_mem _ hy))]
    rfl

/-- When no record's id matches the target, the `save_client` scan falls
through to the loop's `else` branch. -/
theorem save_client_scan_none (c : ClientRec) (t : Option Int) :
    ∀ l : List ClientRec, (∀ x ∈ l, x.id ≠ t) → save_client_scan c t l = none := by
  intro l h
  induction l with
  | nil => rfl
  | cons x xs ih =>
    simp only [save_client_scan]
    rw [if_neg (h x (List.mem_cons_self x xs)),
      ih (fun y hy => h y (List.mem_cons_of_mem _ hy))]
    rfl

/-- When no record's id matches the target, the `save_invoice` scan falls
through to the loop's `else` branch. -/
theorem save_invoice_scan_none (v : InvoiceRec) (t : Option Int) :
    ∀ l : List InvoiceRec, (∀ x ∈ l, x.id ≠ t) → save_invoice_scan v t l = none := by
  intro l h
  induction l with
  | nil => rfl
  | cons x xs ih =>
    simp only [save_invoice_scan]
    rw [if_neg (h x (List.mem_cons_self x xs)),
      ih (fun y hy => h y (List.mem_cons_of_mem _ hy))]
    rfl

/-- Claim C1 (corrected): an upsert of a record whose key matches no
stored record and that carries no `id` appends the record with
`id = len(existing records) + 1` (not `max(existing ids) + 1`), stamping
both timestamps; this holds for `save_user`, `save_client` and
`save_invoice`. -/
theorem save_assigns_length_plus_one
    (users : List UserRec) (u : UserRec) (nu : String)
    (clients : List ClientRec) (c : ClientRec) (nc : String)
    (invoices : List InvoiceRec) (v : InvoiceRec) (nv : String)
    (hu : ∀ x ∈ users, x.email ≠ u.email) (hu0 : u.id = none)
    (hc : ∀ x ∈ clients, x.id ≠ c.id) (hc0 : c.id = none)
    (hv : ∀ x ∈ invoices, x.id ≠ v.id) (hv0 : v.id = none) :
    (save_user users u nu =
      (users ++
        [{ u with
            created_at := some nu
            updated_at := some nu
            id := some ((users.length : Int) + 1) }],
       { u with
          created_at := some nu
          updated_at := some nu
          id := some ((users.length : Int) + 1) })) ∧
    (save_client clients c nc =
      (clients ++
        [{ c with
            created_at := some nc
            updated_at := some nc
            id := some ((clients.length : Int) + 1) }],
       { c with
          created_at := some nc
          updated_at := some nc
          id := some ((clients.length : Int) + 1) })) ∧
    (save_invoice invoices v nv =
      (invoices ++
        [{ v with
            created_at := some nv
            updated_at := some nv
            id := some ((invoices.length : Int) + 1) }],
       { v with
          created_at := some nv
          updated_at := some nv
          id := some ((invoices.length : Int) + 1) })) := by
  refine ⟨?_, ?_, ?_⟩
  · simp only [save_user, save_user_scan_none _ _ users hu, hu0]
    simp
  · rw [hc0] at hc
    simp only [save_client, hc0]
    rw [save_client_scan_none _ _ clients hc]
    simp
  · rw [hv0] at hv
    simp only [save_invoice, hv0]
    rw [save_invoice_scan_none _ _ invoices hv]
    simp

/-- Witness for `save_assigns_length_plus_one` at concrete stores. -/
theorem save_assigns_length_plus_one_witness :
    ((∀ x ∈ [userWithId "a" 5], x.email ≠ (userNoId "b").email) ∧
      (userNoId "b").id = none) ∧
    (save_user [userWithId "a" 5] (userNoId "b") "t").2.id = some 2 := by
  have h := save_assigns_length_plus_one
    [userWithId "a" 5] (userNoId "b") "t"
    [] (clientNoId "acme") "t"
    [] (invoiceNoId "INV-0001") "t"
    (by decide) rfl (by simp) rfl (by simp) rfl
  refine ⟨⟨by decide, rfl⟩, ?_⟩
  rw [h.1]
  decide

/-- Counterexample for claim C1 as stated: ids are derived from the list
length, so they are reassigned after a deletion (here id 1 is assigned,
the record deleted, and id 1 assigned again), and a fresh insert into a
store whose single record has id 5 receives id 2, not
`max(existing ids) + 1 = 6`. -/
theorem save_user_id_reuse_cx :
    (save_user [] (userNoId "a") "t1").2.id = some 1 ∧
    delete_user (save_user [] (userNoId "a") "t1").1 "a" = (true, some []) ∧
    (save_user ((delete_user (save_user [] (userNoId "a") "t1").1 "a").2.getD [])
        (userNoId "b") "t2").2.id = some 1 ∧
    (save_user [userWithId "a" 5] (userNoId "b") "t3").2.id = some 2 := by
  refine ⟨rfl, by decide, rfl, rfl⟩

/-- Claim C10 (confirmed): each delete operation returns `False` and does
not rewrite the backing file when no record matches (the stored collection
is untouched), and rewrites the file with the filtered records and returns
`True` exactly when at least one record matched. -/
theorem delete_frame
    (users : List UserRec) (e : String)
    (clients : List ClientRec) (ci : Int)
    (invoices : List InvoiceRec) (vi : Int) :
    ((∀ x ∈ users, x.email ≠ some e) → delete_user users e = (false, none)) ∧
    ((∃ x ∈ users, x.email = some e) →
      delete_user users e = (true, some (users.filter (fun x => !(x.email == some e))))) ∧
    ((∀ x ∈ clients, x.id ≠ some ci) → delete_client clients ci = (false, none)) ∧
    ((∃ x ∈ clients, x.id = some ci) →
      delete_client clients ci = (true, some (clients.filter (fun x => !(x.id == some ci))))) ∧
    ((∀ x ∈ invoices, x.id ≠ some vi) → delete_invoice invoices vi = (false, none)) ∧
    ((∃ x ∈ invoices, x.id = some vi) →
      delete_invoice invoices vi = (true, some (invoices.filter (fun x => !(x.id == some vi))))) := by
  refine ⟨?_, ?_, ?_, ?_, ?_, ?_⟩
  · intro h
    have hf : users.filter (fun x => !(x.email == some e)) = users :=
      List.filter_eq_self.mpr (by simpa using h)
    simp [delete_user, hf]
  · intro h
    have hlt : (users.filter (fun x => !(x.email == some e))).length < users.length := by
      refine List.length_filter_lt_length_iff_exists.mpr ?_
      obtain ⟨x, hx, hex⟩ := h
      exact ⟨x, hx, by simp [hex]⟩
    simp [delete_user, hlt]
  · intro h
    have hf : clients.filter (fun x => !(x.id == some ci)) = clients :=
      List.filter_eq_self.mpr (by simpa using h)
    simp [delete_client, hf]
  · intro h
    have hlt : (clients.filter (fun x => !(x.id == some ci))).length < clients.length := by
      refine List.length_filter_lt_length_iff_exists.mpr ?_
      obtain ⟨x, hx, hex⟩ := h
      exact ⟨x, hx, by simp [hex]⟩
    simp [delete_client, hlt]
  · intro h
    have hf : invoices.filter (fun x => !(x.id == some vi)) = invoices :=
      List.filter_eq_self.mpr (by simpa using h)
    simp [delete_invoice, hf]
  · intro h
    have hlt : (invoices.filter (fun x => !(x.id == some vi))).length < invoices.length := by
      refine List.length_filter_lt_length_iff_exists.mpr ?_
      obtain ⟨x, hx, hex⟩ := h
      exact ⟨x, hx, by simp [hex]⟩
    simp [delete_invoice, hlt]

/-- Witness for `delete_frame`: a store with one user keeps its file on a
miss and is rewritten on a hit. -/
theorem delete_frame_witness :
    delete_user [userWithId "a" 1] "zzz" = (false, none) ∧
    delete_user [userWithId "a" 1] "a" = (true, some []) := by
  have h1 := (delete_frame [userWithId "a" 1] "zzz" [] 0 [] 0).1 (by decide)
  have h2 := (delete_frame [userWithId "a" 1] "a" [] 0 [] 0).2.1
    ⟨userWithId "a" 1, by simp, rfl⟩
  exact ⟨h1, by simpa using h2⟩

/-- Claim C5 (confirmed): creating a user whose email already exists in
the store fails with the duplicate error and leaves the store unchanged:
same collection, hence same record count and same record under that
email. -/
theorem create_user_duplicate_unchanged
    (users : List UserRec) (e n p : String) (adm : Bool) (now : String)
    (h : ∃ x ∈ users, x.email = some e) :
    create_user users e n p adm now = (.error .duplicateEmail, users) ∧
    (create_user users e n p adm now).2.length = users.length ∧
    get_user_by_email (create_user users e n p adm now).2 e
      = get_user_by_email users e := by
  have hsome : (users.find? (fun u => u.email == some e)).isSome := by
    refine List.find?_isSome.mpr ?_
    obtain ⟨x, hx, he⟩ := h
    exact ⟨x, hx, by simp [he]⟩
  obtain ⟨w, hw⟩ := Option.isSome_iff_exists.mp hsome
  have heq : create_user users e n p adm now = (.error .duplicateEmail, users) := by
    simp only [create_user, get_user_by_email, hw]
  exact ⟨heq, by rw [heq], by rw [heq]⟩

/-- Witness for `create_user_duplicate_unchanged` at a one-user store. -/
theorem create_user_duplicate_unchanged_witness :
    (∃ x ∈ [userWithId "a" 1], x.email = some "a") ∧
    create_user [userWithId "a" 1] "a" "name" "pw" false "t"
      = (.error .duplicateEmail, [userWithId "a" 1]) :=
  ⟨⟨userWithId "a" 1, by simp, rfl⟩,
   (create_user_duplicate_unchanged [userWithId "a" 1] "a" "name" "pw" false "t"
      ⟨userWithId "a" 1, by simp, rfl⟩).1⟩

/-- Claim C6 (code bug): `FileDatabase` list operations return `[]` both
for a missing backing file and for malformed content; but
`NetlifyDatabase._read_json` returns `[]` only for malformed content and
falls through to `None` for a missing file, contradicting its own
`List[Dict]` annotation and the claim. -/
theorem read_json_missing_file_behavior :
    FileDatabase_get_users .missing = [] ∧
    FileDatabase_get_users .malformed = [] ∧
    FileDatabase_get_clients .missing = [] ∧
    FileDatabase_get_clients .malformed = [] ∧
    FileDatabase_get_invoices .missing = [] ∧
    FileDatabase_get_invoices .malformed = [] ∧
    NetlifyDatabase_get_users .malformed = some [] ∧
    NetlifyDatabase_get_users .missing = none ∧
    NetlifyDatabase_get_users .missing ≠ some [] :=
  ⟨rfl, rfl, rfl, rfl, rfl, rfl, rfl, rfl, by decide⟩

/-- Claim C3 (code bug): the live `create_invoice`/`update_invoice`
endpoints of `src/backend/main.py` never recompute the totals.  Updating
the stored invoice's items leaves the stale `subtotal`/`tax_amount`/
`total_amount` (100/0/100) in place although `calculate_invoice_totals`
of the new items is (5, 0, 5); and a created invoice is stored with no
totals keys at all (`none`). -/
theorem main_invoice_totals_not_recomputed :
    (main_update_invoice [storedInvoice] 1 itemsOnlyUpdate "t1").map
        (fun p => (p.2.subtotal, p.2.tax_amount, p.2.total_amount, p.2.items))
      = some (some 100, some 0, some 100, some [itemNew]) ∧
    calculate_invoice_totals [itemNew] = (5, 0, 5) ∧
    (100 : ℚ) ≠ 5 ∧
    (main_create_invoice [] createReq 7 "t0").map (fun p => p.2.subtotal)
      = some none := by
  refine ⟨by decide, ?_, by norm_num, by decide⟩
  norm_num [calculate_invoice_totals, itemNew, Prod.ext_iff]

/-- `str.split` never returns an empty list of parts. -/
theorem splitCharList_ne_nil (c : Char) : ∀ l : List Char, splitCharList c l ≠ [] := by
  intro l
  induction l with
  | nil => simp [splitCharList]
  | cons x xs ih =>
    simp only [splitCharList]
    by_cases hx : x = c
    · simp [hx]
    · simp only [if_neg hx]
      cases h : splitCharList c xs with
      | nil => exact absurd h ih
      | cons a t => simp

/-- Splitting a list that does not contain the separator yields the list
itself as the only part. -/
theorem split_of_not_mem (c : Char) : ∀ l : List Char, c ∉ l → splitCharList c l = [l] := by
  intro l h
  induction l with
  | nil => rfl
  | cons x xs ih =>
    have hx : ¬ x = c := by
      intro hh
      exact (h (by simp [hh]))
    have hxs : c ∉ xs := fun hh => h (List.mem_cons_of_mem _ hh)
    simp only [splitCharList, if_neg hx, ih hxs]

/-- Splitting a list that contains the separator yields at least two
parts. -/
theorem split_of_mem (c : Char) : ∀ l : List Char, c ∈ l →
    ∃ h t, splitCharList c l = h :: t ∧ t ≠ [] := by
  intro l hm
  induction l with
  | nil => simp at hm
  | cons x xs ih =>
    by_cases hx : x = c
    · refine ⟨[], splitCharList c xs, ?_, splitCharList_ne_nil c xs⟩
      simp [splitCharList, hx]
    · have hmx : c ∈ xs := by
        rcases List.mem_cons.mp hm with h1 | h1
        · exact absurd h1.symm hx
        · exact h1
      obtain ⟨h, t, heq, ht⟩ := ih hmx
      refine ⟨x :: h, t, ?_, ht⟩
      simp only [splitCharList, if_neg hx, heq]

/-- `getLastD` of a nonempty list does not depend on the default. -/
theorem getLastD_of_ne_nil {α : Type} :
    ∀ (l : List α) (d d' : α), l ≠ [] → l.getLastD d = l.getLastD d'
  | [], _, _, h => absurd rfl h
  | [_], _, _, _ => rfl
  | a :: b :: t, d, d', _ => by
    rw [List.getLastD_cons d a (b :: t), List.getLastD_cons d' a (b :: t)]

/-- `split('-')[-1]` is exactly the run of characters after the last
separator (the whole list when the separator is absent). -/
theorem splitCharList_getLastD (c : Char) :
    ∀ l : List Char, (splitCharList c l).getLastD [] = suffixAfterLastDash c l := by
  intro l
  induction l with
  | nil => rfl
  | cons x xs ih =>
    by_cases hx : x = c
    · have h1 : splitCharList c (x :: xs) = [] :: splitCharList c xs := by
        simp [splitCharList, hx]
      rw [h1, List.getLastD_cons, ih]
      simp [suffixAfterLastDash, hx]
    · by_cases hm : c ∈ xs
      · obtain ⟨h, t, heq, ht⟩ := split_of_mem c xs hm
        have h1 : splitCharList c (x :: xs) = (x :: h) :: t := by
          simp only [splitCharList, if_neg hx, heq]
        have hIH := ih
        rw [heq, List.getLastD_cons, getLastD_of_ne_nil t h [] ht] at hIH
        rw [h1, List.getLastD_cons, getLastD_of_ne_nil t (x :: h) [] ht, hIH]
        simp [suffixAfterLastDash, hx, hm]
      · have h1 : splitCharList c (x :: xs) = [x :: xs] := by
          simp only [splitCharList, if_neg hx, split_of_not_mem c xs hm]
        rw [h1]
        simp [suffixAfterLastDash, hx, hm, List.getLastD]

/-- The suffix after the last separator never contains the separator. -/
theorem suffixAfterLastDash_not_mem (c : Char) :
    ∀ l : List Char, c ∉ suffixAfterLastDash c l := by
  intro l
  induction l with
  | nil => simp [suffixAfterLastDash]
  | cons x xs ih =>
    by_cases hx : x = c
    · simpa [suffixAfterLastDash, hx] using ih
    · by_cases hm : c ∈ xs
      · simpa [suffixAfterLastDash, hx, hm] using ih
      · simp only [suffixAfterLastDash, if_neg hx, if_neg hm]
        intro hmem
        rcases List.mem_cons.mp hmem with h1 | h1
        · exact hx h1.symm
        · exact hm h1

/-- `int(s)` on a string without a minus sign never parses to a negative
value. -/
theorem pySignedDigits_nonneg (t : List Char) (hm : '-' ∉ t) (n : Int)
    (h : pySignedDigits t = some n) : 0 ≤ n := by
  cases t with
  | nil => simp [pySignedDigits] at h
  | cons c rest =>
    simp only [pySignedDigits] at h
    by_cases h1 : c = '+'
    · rw [if_pos h1] at h
      cases hd : pyDigits rest with
      | none => simp [hd] at h
      | some m =>
        simp [hd] at h
        omega
    · rw [if_neg h1] at h
      by_cases h2 : c = '-'
      · exact absurd (by simp [h2]) hm
      · rw [if_neg h2] at h
        cases hd : pyDigits (c :: rest) with
        | none => simp [hd] at h
        | some m =>
          simp [hd] at h
          omega

/-- `int(s)` on a character list without a minus sign never parses to a
negative value: the stripped core is a subsequence of the input. -/
theorem pyIntList_nonneg (l : List Char) (hl : '-' ∉ l) (n : Int)
    (h : pyIntList l = some n) : 0 ≤ n := by
  unfold pyIntList at h
  refine pySignedDigits_nonneg _ ?_ n h
  intro hmem
  rw [List.mem_reverse] at hmem
  have hx2 : '-' ∈ (l.dropWhile isPySpace).reverse :=
    (List.dropWhile_sublist isPySpace).subset hmem
  rw [List.mem_reverse] at hx2
  exact hl ((List.dropWhile_sublist isPySpace).subset hx2)

/-- For non-negative numbers, Python's `{:04d}` format is exactly the
claim's zero-pad-to-4-digits-but-widen rendering. -/
theorem pad04_eq_zeroPadWiden (n : Int) (h : 0 ≤ n) : pad04 n = zeroPadWiden n := by
  unfold pad04 zeroPadWiden
  rw [if_neg (not_lt.mpr h)]
  by_cases hlen : (toString n).length < 4
  · rw [if_pos hlen]
  · rw [if_neg hlen, Nat.sub_eq_zero_of_le (le_of_not_lt hlen)]
    cases hs : toString n with
    | mk data => rfl

/-- Claim C2 (confirmed): `generate_invoice_number` takes the invoice with
the maximum `id`, parses the integer suffix after the last `-` of its
`invoice_number`, and returns `"INV-"` followed by that integer plus one
zero-padded to 4 digits (larger numbers widen); with no invoice or an
unparsable suffix it restarts at 1; in particular the empty table yields
`"INV-0001"` and a table whose last invoice is numbered `"INV-0007"`
yields `"INV-0008"`. -/
theorem generate_invoice_number_spec :
    generate_invoice_number [] = "INV-0001" ∧
    generate_invoice_number [{ id := 1, invoice_number := "INV-0007" }] = "INV-0008" ∧
    (∀ (rows : List InvoiceRow) (inv : InvoiceRow) (n : Int),
      last_invoice rows = some inv →
      pyIntList (suffixAfterLastDash '-' inv.invoice_number.toList) = some n →
      generate_invoice_number rows = "INV-" ++ zeroPadWiden (n + 1)) ∧
    (∀ (rows : List InvoiceRow) (inv : InvoiceRow),
      last_invoice rows = some inv →
      pyIntList (suffixAfterLastDash '-' inv.invoice_number.toList) = none →
      generate_invoice_number rows = "INV-0001") := by
  refine ⟨rfl, rfl, ?_, ?_⟩
  · intro rows inv n hlast hparse
    have hn : 0 ≤ n :=
      pyIntList_nonneg _ (suffixAfterLastDash_not_mem '-' _) n hparse
    simp only [generate_invoice_number, hlast, splitCharList_getLastD, hparse]
    rw [pad04_eq_zeroPadWiden (n + 1) (by omega)]
  · intro rows inv hlast hparse
    simp only [generate_invoice_number, hlast, splitCharList_getLastD, hparse]
    rfl

/-- Witness for `generate_invoice_number_spec` at a one-row table. -/
theorem generate_invoice_number_spec_witness :
    last_invoice [{ id := 3, invoice_number := "INV-0099" }]
      = some { id := 3, invoice_number := "INV-0099" } ∧
    pyIntList (suffixAfterLastDash '-' ("INV-0099" : String).toList) = some 99 ∧
    generate_invoice_number [{ id := 3, invoice_number := "INV-0099" }]
      = "INV-" ++ zeroPadWiden 100 :=
  ⟨rfl, rfl, generate_invoice_number_spec.2.2.1 _ _ 99 rfl rfl⟩

/-- Python's `round` is the identity on integral values. -/
theorem pyRound_intCast (z : ℤ) : pyRound ((z : ℚ)) = z := by
  simp [pyRound, Int.floor_intCast]

/-- Counterexample for claim C7 as stated: at the amount `-5/2` the code
truncates toward zero (`int(-2.5) == -2`, cents `-50`, no cents clause),
while the claim's floor-based formula gives integer part `-3` and cents
`50`; the outputs differ. -/
theorem number_to_words_floor_cx :
    number_to_words (.fin (-5/2)) = "Minus two Only" ∧
    amountToWordsClaim (-5/2) = some "Minus three and fifty/100 Only" ∧
    some (number_to_words (.fin (-5/2))) ≠ amountToWordsClaim (-5/2) := by
  have hT : pyTrunc (-5/2 : ℚ) = -2 := by
    unfold pyTrunc
    rw [if_neg (by norm_num), Int.ceil_eq_iff]
    norm_num
  have hargc : ((-5/2 : ℚ) - ((-2 : ℤ) : ℚ)) * 100 = (((-50 : ℤ)) : ℚ) := by
    push_cast
    norm_num
  have hcode : number_to_words (.fin (-5/2)) = "Minus two Only" := by
    simp only [number_to_words, number_to_words_core]
    rw [hT, hargc, pyRound_intCast,
      (by decide : wordsResult (-2) (-50) = some "Minus two Only")]
    rfl
  have hfl : ⌊(-5/2 : ℚ)⌋ = -3 := by norm_num
  have hargs : ((-5/2 : ℚ) - ((-3 : ℤ) : ℚ)) * 100 = ((50 : ℤ) : ℚ) := by
    push_cast
    norm_num
  have hclaim : amountToWordsClaim (-5/2) = some "Minus three and fifty/100 Only" := by
    unfold amountToWordsClaim
    rw [hfl, hargs, pyRound_intCast,
      (by decide : wordsResult (-3) 50 = some "Minus three and fifty/100 Only")]
  refine ⟨hcode, hclaim, ?_⟩
  rw [hcode, hclaim]
  decide

/-- Claim C7 (corrected): for every non-negative finite amount,
`number_to_words` agrees with the claim's formula (with the fallback of
C8 as the failure default); the correction is that the code computes the
integer part by truncation toward zero, which only coincides with `floor`
on non-negative amounts. -/
theorem number_to_words_nonneg_spec (q : ℚ) (h : 0 ≤ q) :
    number_to_words (.fin q) = (amountToWordsClaim q).getD (pyStr (.fin q)) := by
  have ht : pyTrunc q = ⌊q⌋ := if_pos h
  simp only [number_to_words, number_to_words_core, amountToWordsClaim, ht]

/-- Witness for `number_to_words_nonneg_spec` at the amount `1.25`. -/
theorem number_to_words_nonneg_spec_witness :
    0 ≤ (5/4 : ℚ) ∧
    number_to_words (.fin (5/4)) = (amountToWordsClaim (5/4)).getD (pyStr (.fin (5/4))) :=
  ⟨by norm_num, number_to_words_nonneg_spec (5/4) (by norm_num)⟩

/-- Counterexample for claim C8 as stated: the negative amount `-1.5` is
not a failure input — `inflect` renders negative integers with a `minus`
prefix, so the function returns `"Minus one Only"`, not the numeric
string (which starts with `'-'`). -/
theorem number_to_words_negative_cx :
    number_to_words (.fin (-3/2)) = "Minus one Only" ∧
    number_to_words (.fin (-3/2)) ≠ pyStr (.fin (-3/2)) := by
  have hT : pyTrunc (-3/2 : ℚ) = -1 := by
    unfold pyTrunc
    rw [if_neg (by norm_num), Int.ceil_eq_iff]
    norm_num
  have harg : ((-3/2 : ℚ) - ((-1 : ℤ) : ℚ)) * 100 = (((-50 : ℤ)) : ℚ) := by
    push_cast
    norm_num
  have hcode : number_to_words (.fin (-3/2)) = "Minus one Only" := by
    simp only [number_to_words, number_to_words_core]
    rw [hT, harg, pyRound_intCast,
      (by decide : wordsResult (-1) (-50) = some "Minus one Only")]
    rfl
  refine ⟨hcode, ?_⟩
  rw [hcode]
  intro heq
  have hneg : (-3/2 : ℚ) < 0 := by norm_num
  have hstr : pyStr (.fin (-3/2)) = "-" ++ ratDecimalDigits |(-3/2 : ℚ)| := by
    simp only [pyStr, ratDecimalStr, if_pos hneg]
  rw [hstr] at heq
  have hhead : (("-" ++ ratDecimalDigits |(-3/2 : ℚ)|).data).head? = some '-' := by
    rw [String.data_append]
    rfl
  rw [← heq] at hhead
  exact absurd hhead (by decide)

/-- Claim C8 (corrected): on every input where the `try` body fails — the
non-finite floats, where `int(number)` raises, and the finite values
whose word rendering fails — `number_to_words` returns `str(number)`;
negative finite amounts are not failure inputs (see the counterexample). -/
theorem number_to_words_fallback (x : PyFloat) (h : isFailureInput x = true) :
    number_to_words x = pyStr x := by
  cases x with
  | fin q =>
    have hc : number_to_words_core q = none := by
      simpa [isFailureInput, Option.isNone_iff_eq_none] using h
    simp [number_to_words, hc]
  | inf => rfl
  | ninf => rfl
  | nan => rfl

/-- Witness for `number_to_words_fallback` at positive infinity. -/
theorem number_to_words_fallback_witness :
    isFailureInput PyFloat.inf = true ∧
    number_to_words PyFloat.inf = pyStr PyFloat.inf :=
  ⟨rfl, number_to_words_fallback PyFloat.inf rfl⟩
